import Mathlib

/-!
Verification of the conversation state machine of `src/main.py`
(`process_whatsapp_message` and its helpers).

The embedding below is a shallow model of the Python source. Conventions:

* Python `None` becomes `Option.none`; a Python `dict` whose keys are fixed
  becomes a structure; the insertion-ordered dict `audio_urls` becomes an
  association list.
* The module-level collaborator handles (`asr_pipeline`, `google_tts_client`,
  `s3_client`, `R2_ENDPOINT_URL_PUBLIC`) are set once at import and never
  reassigned; they are modelled by a `Caps` record of booleans.  In the source
  `s3_client` and `R2_ENDPOINT_URL_PUBLIC` are either both set or both `None`
  (lines 106-127: both assigned in the same `try`, both `None` on failure),
  so one boolean `s3` models both.
* The outcomes of the network calls made while handling an inbound audio
  message (media-info request, file download, Whisper transcription) are
  modelled by an `Oracle` record fixed for the turn.
* An uncaught Python exception is modelled by the step function returning
  `none` (the only uncaught ones are `AttributeError`s on `None.replace` /
  `None.title`); the `NameError` raised at line 381 by evaluating the
  undefined name `message` is caught by the `except Exception` handler at
  line 404 and therefore turns into an ordinary reply.
* Python string methods `lower`, `title`, `isdigit` and `int()` are modelled
  character-wise for the ASCII range plus the accented Latin letters that the
  program's Portuguese vocabulary uses; this is the behaviour of the Python
  methods restricted to that alphabet.
-/

set_option maxRecDepth 16384

/-- Character-wise model of Python `str.lower` (ASCII plus the accented
Latin letters used by the program's vocabulary). -/
def lowerChar (c : Char) : Char :=
  if 65 ≤ c.toNat ∧ c.toNat ≤ 90 then Char.ofNat (c.toNat + 32)
  else match c with
    | 'Á' => 'á' | 'À' => 'à' | 'Â' => 'â' | 'Ã' => 'ã' | 'Ç' => 'ç'
    | 'É' => 'é' | 'Ê' => 'ê' | 'Í' => 'í' | 'Ó' => 'ó' | 'Ô' => 'ô'
    | 'Õ' => 'õ' | 'Ú' => 'ú' | 'Ü' => 'ü'
    | _ => c

/-- Character-wise model of Python `str.upper` on the same alphabet. -/
def upperChar (c : Char) : Char :=
  if 97 ≤ c.toNat ∧ c.toNat ≤ 122 then Char.ofNat (c.toNat - 32)
  else match c with
    | 'á' => 'Á' | 'à' => 'À' | 'â' => 'Â' | 'ã' => 'Ã' | 'ç' => 'Ç'
    | 'é' => 'É' | 'ê' => 'Ê' | 'í' => 'Í' | 'ó' => 'Ó' | 'ô' => 'Ô'
    | 'õ' => 'Õ' | 'ú' => 'Ú' | 'ü' => 'Ü'
    | _ => c

/-- Is `c` a cased letter (ASCII letters plus the accented letters above)?
Used by the model of Python `str.title`. -/
def isCasedChar (c : Char) : Bool :=
  (65 ≤ c.toNat && c.toNat ≤ 90) || (97 ≤ c.toNat && c.toNat ≤ 122) ||
  (['Á', 'À', 'Â', 'Ã', 'Ç', 'É', 'Ê', 'Í', 'Ó', 'Ô', 'Õ', 'Ú', 'Ü',
    'á', 'à', 'â', 'ã', 'ç', 'é', 'ê', 'í', 'ó', 'ô', 'õ', 'ú', 'ü'].contains c)

/-- Helper for `pyTitle`: the boolean records whether the previous character
was a cased letter. -/
def titleAux : Bool → List Char → List Char
  | _, [] => []
  | prev, c :: cs =>
    if isCasedChar c then
      (if prev then lowerChar c else upperChar c) :: titleAux true cs
    else
      c :: titleAux false cs

/-- Model of Python `str.title` on the program's alphabet: the first cased
letter of every run of cased letters is uppercased, the rest lowercased. -/
def pyTitle (s : String) : String := ⟨titleAux false s.data⟩

/-- Model of Python `str.lower` on the program's alphabet. -/
def pyLower (s : String) : String := ⟨s.data.map lowerChar⟩

/-- Model of Python `str.replace('_', ' ')`. -/
def pyReplaceUnderscore (s : String) : String :=
  ⟨s.data.map (fun c => if c = '_' then ' ' else c)⟩

/-- Python truthiness of a string: non-empty. -/
def truthyStr (t : String) : Bool := if t = "" then false else true

/-- Python truthiness of an optional string (`None` and `""` are falsy). -/
def truthy : Option String → Bool
  | none => false
  | some t => truthyStr t

/-- Model of Python `str.isdigit` (restricted to ASCII decimal digits, the
only digits the program's prompts ask for). -/
def pyIsDigit (t : String) : Bool :=
  !t.data.isEmpty && t.data.all Char.isDigit

/-- Model of Python `int()` on a string of ASCII decimal digits. -/
def pyToNat (t : String) : Nat :=
  t.data.foldl (fun a c => a * 10 + (c.toNat - 48)) 0

/-- Does the character list `p` occur as a leading segment of `s`? -/
def listStarts : List Char → List Char → Bool
  | [], _ => true
  | _ :: _, [] => false
  | a :: as, b :: bs => a = b && listStarts as bs

/-- Model of Python `str.startswith`. -/
def strStarts (p s : String) : Bool := listStarts p.data s.data

/-- Model of Python `sep.join(xs)`. -/
def pyJoin (sep : String) : List String → String
  | [] => ""
  | [x] => x
  | x :: y :: xs => x ++ sep ++ pyJoin sep (y :: xs)

/-- Does the character list `p` occur contiguously anywhere inside `s`? -/
def listHasSeg (p : List Char) : List Char → Bool
  | [] => listStarts p []
  | c :: cs => listStarts p (c :: cs) || listHasSeg p cs

/-- String `p` occurs verbatim (contiguously) inside `s`. -/
def strHasSeg (p s : String) : Bool := listHasSeg p.data s.data

/-- Propositional form of verbatim containment: `s` splits around `p`. -/
def SubSeg (p s : String) : Prop :=
  ∃ a b : List Char, s.data = a ++ p.data ++ b

/-- The strings `ps` all occur verbatim inside the character list `l`, in
the given order and without overlapping. -/
def appearsInOrder : List String → List Char → Prop
  | [], _ => True
  | p :: ps, l => ∃ a b, l = a ++ p.data ++ b ∧ appearsInOrder ps b

/-- Python `f"⟦x⟧"` rendering of an optional string (`None` prints as
`"None"`); used where `main.py` interpolates a metadata field that may be
`None`. -/
def optStr : Option String → String
  | none => "None"
  | some x => x

/-- Python `f"⟦x⟧"` rendering of an optional integer. -/
def optNat : Option Nat → String
  | none => "None"
  | some n => toString n

/-- The `metadata` dict of a user state (`init_user_state`, lines 238-250). -/
structure Metadata where
  user_id : String
  platform : String
  username : String
  name : Option String
  age : Option Nat
  diagnosis : Option String
  smoking_status : Option String
  emotional_state : Option Nat
  environment : Option String
  current_audio_task : Option String
  audio_urls : List (String × String)
deriving DecidableEq

/-- One user state record (`init_user_state`, lines 236-253). -/
structure Session where
  stage : String
  metadata : Metadata
  tasks_queue : List String
  interaction_mode : String
deriving DecidableEq

/-- Availability of the module-level collaborators, fixed for a process run:
`asr` models `asr_pipeline`, `tts` models `google_tts_client`, and `s3`
models `s3_client` together with `R2_ENDPOINT_URL_PUBLIC` (which the source
sets and clears jointly, lines 106-127). -/
structure Caps where
  asr : Bool
  tts : Bool
  s3 : Bool
deriving DecidableEq

/-- One inbound event as passed to `process_whatsapp_message`: optional text
body and optional audio media id.  The transport adapter (lines 716-726)
supplies exactly one of the two. -/
structure Event where
  text : Option String
  audio : Option String
deriving DecidableEq

/-- Outcome of the media-info request and file download performed for an
inbound audio message (lines 344-364): an `httpx.HTTPStatusError` from either
request, some other exception from either request, a media-info response with
no `"url"` field, or a successful download. -/
inductive MediaFetch where
  | httpStatusErr
  | otherErr
  | noUrl
  | ok
deriving DecidableEq

/-- Collaborator outcomes for one turn: the media fetch result and the value
returned by `transcribe_audio` (`none` models both a transcription failure
and the exceptional paths inside `transcribe_audio`, which returns `None`). -/
structure Oracle where
  mediaInfo : MediaFetch
  transcript : Option String
deriving DecidableEq

/-- Fresh user state (`init_user_state`, lines 233-255).  Note the source
initialises `interaction_mode` to `"text"`. -/
def init_user_state (user_id username : String) : Session :=
  { stage := "initial"
  , metadata :=
      { user_id := user_id
      , platform := "whatsapp"
      , username := username
      , name := none
      , age := none
      , diagnosis := none
      , smoking_status := none
      , emotional_state := none
      , environment := none
      , current_audio_task := none
      , audio_urls := [] }
  , tasks_queue := []
  , interaction_mode := "text" }

/-- The fixed ordered task catalog (line 535). -/
def taskCatalog : List String :=
  ["silence", "vogal_a", "vogal_e", "vogal_i", "vogal_o",
   "fricativo_s", "fricativo_z", "sentence_read"]

/-- Welcome / mode-selection reply (lines 331, 587, 595). -/
def msgWelcome : String :=
  "Olá! Bem-vindo ao Kurumim. Como você gostaria de interagir? Por *texto* ou por *voz*?"

/-- Reply when the media-info response has no download URL (line 358). -/
def msgGetAudioErr : String :=
  "Desculpe, tive um problema ao obter seu áudio. Poderia tentar novamente?"

/-- Reply when transcription fails (line 373). -/
def msgUnderstandErr : String :=
  "Desculpe, não consegui entender o que você disse. Poderia repetir?"

/-- Reply of the `httpx.HTTPStatusError` handler (line 403). -/
def msgDownloadErr : String :=
  "Desculpe, tive um problema ao baixar seu áudio. Poderia tentar novamente?"

/-- Reply of the generic `except Exception` handler (line 406); in
particular this is the reply produced when line 381 evaluates the undefined
name `message` and raises `NameError`. -/
def msgProcessErr : String :=
  "Desculpe, tive um problema ao processar seu áudio. Poderia tentar novamente?"

/-- Notice sent when a voice-mode user sends text (line 410). -/
def msgVoiceGotText : String :=
  "Detectei que você está no modo de *voz*, mas enviou uma mensagem de *texto*. Processando sua mensagem de texto."

/-- Suffix appended to `msgVoiceGotText` at an audio stage (line 414). -/
def msgVoiceGotTextAudioSuffix (task : String) : String :=
  "\nMas esperava um *áudio* para a tarefa \x27" ++ pyReplaceUnderscore task ++
  "\x27. Você gostaria de tentar novamente enviando um áudio?"

/-- Reply when a text-mode user sends audio (line 419). -/
def msgTextGotAudio : String :=
  "Detectei que você está no modo de *texto*, mas enviou uma mensagem de *voz*. Por favor, use texto para interagir."

/-- Reply to an empty event (line 423). -/
def msgNotUnderstood : String :=
  "Não entendi sua mensagem. Poderia tentar novamente?"

/-- Consent question (lines 435-439 and 462-466). -/
def msgConsent (username : String) : String :=
  "Olá, " ++ username ++
  "! Sua voz pode nos ajudar a desenvolver novas formas de monitorar a saúde. As gravações serão usadas anonimamente e exclusivamente para pesquisa científica. Você gostaria de participar e contribuir com sua voz? (Sim/Não)"

/-- Reply on choosing text mode (lines 434-440). -/
def msgTextModeSet (username : String) : String :=
  "Modo de interação definido para *texto*." ++ "\n" ++ msgConsent username

/-- Reply on successfully choosing voice mode (lines 461-467). -/
def msgVoiceModeSet (username : String) : String :=
  "Modo de interação definido para *voz*." ++ "\n" ++ msgConsent username

/-- Warning when voice mode is requested but ASR is unavailable (line 444). -/
def msgAsrUnavailable : String :=
  "Desculpe, a *transcrição de voz (ASR)* está desativada devido a um erro na inicialização do modelo Whisper. Por favor, use o modo de texto."

/-- Warning when voice mode is requested but TTS is unavailable (line 449). -/
def msgTtsUnavailable : String :=
  "Desculpe, a *geração de voz (TTS)* está desativada devido a um erro nas credenciais ou inicialização do Google Cloud TTS. Por favor, use o modo de texto."

/-- Warning when voice mode is requested but R2 is unavailable (line 454). -/
def msgR2Unavailable : String :=
  "Desculpe, o serviço de *armazenamento de áudio (R2)* não está configurado para o upload de áudios. Por favor, use o modo de texto."

/-- Re-prompt at stage `initial` (line 469). -/
def msgChooseMode : String :=
  "Por favor, escolha \x27texto\x27 ou \x27voz\x27 para definir como vamos interagir."

/-- Reply on consent accepted (line 475). -/
def msgConsentYes : String :=
  "Ótimo! Sua participação é muito importante. Para começar, qual o seu *nome* ou um *apelido* que gostaria de usar para esta pesquisa?"

/-- Reply on consent refused (line 479). -/
def msgConsentNo : String :=
  "Entendi. Agradecemos seu interesse. Se mudar de ideia, pode digitar /start a qualquer momento."

/-- Re-prompt at stage `awaiting_consent` (line 483). -/
def msgConsentAgain : String :=
  "Por favor, responda \x27Sim\x27 ou \x27Não\x27 para indicar seu consentimento."

/-- Reply on a recorded name (line 489). -/
def msgNameOk (name : String) : String :=
  "Obrigado, " ++ name ++ "! Agora, qual a sua *idade* (apenas números)?"

/-- Re-prompt at stage `awaiting_name` (line 493). -/
def msgNameAgain : String :=
  "Por favor, me diga seu nome ou apelido."

/-- Reply on a recorded age (line 498). -/
def msgAgeOk : String :=
  "Idade registrada! Você se considera *Fumante*, *Ex-fumante* ou *Não fumante*?"

/-- Re-prompt at stage `awaiting_age` (line 502). -/
def msgAgeAgain : String :=
  "Por favor, digite sua idade em números (entre 5 e 120 anos)."

/-- Reply on a recorded smoking status (line 507). -/
def msgSmokingOk : String :=
  "Obrigado. Você tem algum *diagnóstico de saúde* relevante (ex: Parkinson, Diabetes, Hipertensão, Saudável)?"

/-- Re-prompt at stage `awaiting_smoking_status` (line 511). -/
def msgSmokingAgain : String :=
  "Por favor, responda com \x27Fumante\x27, \x27Ex-fumante\x27 ou \x27Não fumante\x27."

/-- Reply on a recorded diagnosis (line 516). -/
def msgDiagnosisOk : String :=
  "Entendido. Em uma escala de 1 a 5 (onde 1 é muito calmo e 5 é muito estressado), como você se sente *emocionalmente* agora?"

/-- Re-prompt at stage `awaiting_diagnosis` (line 520). -/
def msgDiagnosisAgain : String :=
  "Por favor, digite seu diagnóstico de saúde (ou \x27Saudável\x27 se não tiver)."

/-- Reply on a recorded emotional state (line 525). -/
def msgEmotionalOk : String :=
  "Quase lá! Por favor, descreva o *ambiente* onde você está gravando agora: (Ex: Silencioso, Pouco ruído, Barulhento)"

/-- Re-prompt at stage `awaiting_emotional_state` (line 529). -/
def msgEmotionalAgain : String :=
  "Por favor, use um número de 1 a 5 para descrever seu estado emocional."

/-- Reply on a recorded environment description (lines 536-540). -/
def msgEnvironmentOk : String :=
  "Perfeito! Seus dados iniciais foram registrados. Agora, vamos para a parte mais importante: a sua voz. Por favor, encontre um local o mais silencioso possível. Quando estiver pronto, vamos começar."

/-- Re-prompt at stage `awaiting_environment` (line 544). -/
def msgEnvironmentAgain : String :=
  "Por favor, descreva o ambiente da gravação."

/-- Acknowledgement of a received task audio (line 553). -/
def msgAudioReceived (task : String) : String :=
  "Áudio da tarefa \x27" ++ pyReplaceUnderscore task ++ "\x27 recebido e salvo! Obrigado."

/-- Re-prompt when text arrives at an audio stage (line 569). -/
def msgAudioAgain (task : String) : String :=
  "Não recebi um áudio para a tarefa \x27" ++ pyReplaceUnderscore task ++
  "\x27. Por favor, grave e envie o áudio solicitado."

/-- Closing reply at stage `finished_tasks` (line 589). -/
def msgTasksDone : String :=
  "Sua contribuição está completa! Muito obrigado por ajudar o Kurumim. Seus dados e áudios foram salvos com sucesso. Se quiser começar de novo, digite /start."

/-- Reply at stage `finished` (line 597). -/
def msgFinished : String :=
  "Sua sessão já foi concluída. Muito obrigado por sua participação. Para iniciar uma nova sessão, digite /start."

/-- Task instruction texts (`get_task_prompt`, lines 605-625). -/
def get_task_prompt (task_type : String) : String :=
  if task_type = "silence" then
    "Para a primeira gravação, por favor, inspire fundo e grave cerca de 5 segundos de *silêncio* no ambiente onde você está. Isso nos ajuda a analisar o ruído de fundo. Pode começar quando estiver pronto!"
  else if task_type = "vogal_a" then
    "Ótimo! Inspire fundo. Quando estiver pronto, por favor, diga \x27Aaaaaa\x27 por cerca de 5 segundos em um tom normal e envie o áudio."
  else if task_type = "vogal_e" then
    "Excelente. Agora, vamos fazer o mesmo com a vogal \x27E\x27. Inspire fundo. Quando estiver pronto, por favor, diga \x27Eeeee\x27 por cerca de 5 segundos em um tom normal e envie o áudio."
  else if task_type = "vogal_i" then
    "Perfeito! Para a próxima, inspire fundo. Quando estiver pronto, por favor, diga \x27Iiiiiii\x27 por cerca de 5 segundos em um tom normal e envie o áudio."
  else if task_type = "vogal_o" then
    "Quase lá! Para a vogal \x27O\x27, inspire fundo. Quando estiver pronto, por favor, diga \x27Oooooo\x27 por cerca de 5 segundos em um tom normal e envie o áudio."
  else if task_type = "fricativo_s" then
    "Muito bem! Agora, faremos um som diferente. Inspire fundo e, quando estiver pronto, emita o som de \x27Sssssss\x27 de forma contínua pelo máximo de tempo que conseguir, e envie o áudio."
  else if task_type = "fricativo_z" then
    "Perfeito. Agora, faremos o mesmo com o som de \x27Z\x27. Inspire fundo e, quando estiver pronto, emita o som de \x27Zzzzzzz\x27 de forma contínua pelo máximo de tempo que conseguir, e envie o áudio."
  else if task_type = "sentence_read" then
    "Para a última tarefa, por favor, inspire fundo e leia a seguinte frase em voz alta de forma natural: \"O peito do pé do Pedro é preto. A aranha arranha a jarra.\". Envie o áudio quando terminar."
  else
    "Tarefa de áudio desconhecida. Por favor, tente novamente."

/-- One line of the collected-audio listing (line 634). -/
def audioUrlLine (p : String × String) : String :=
  "- " ++ pyTitle (pyReplaceUnderscore p.1) ++ ": " ++ p.2

/-- The collected-audio listing (lines 632-635). -/
def audioListStr (urls : List (String × String)) : String :=
  if urls = [] then "Nenhum áudio de tarefa coletado."
  else pyJoin "\n" (urls.map audioUrlLine)

/-- Completion report (`get_completion_message`, lines 627-649).  Returns
`none` when `smoking_status` is `None`, because the source then calls
`.title()` on `None` and raises an uncaught `AttributeError`. -/
def get_completion_message (m : Metadata) : Option String :=
  match m.smoking_status with
  | none => none
  | some sm => some
      ("Fantástico! Coletamos todas as suas amostras de voz. Sua contribuição é extremamente valiosa para a pesquisa de saúde do Kurumim." ++
       ("\nMuito obrigado por participar! Seus dados e áudios foram salvos com sucesso." ++
       ("\n\nDetalhes da sua sessão (anonimizados para pesquisa):" ++
       ("\nNome/ID: " ++ (optStr m.name ++
       ("\nIdade: " ++ (optNat m.age ++
       ("\nDiagnóstico: " ++ (optStr m.diagnosis ++
       ("\nStatus de Fumante: " ++ (pyTitle sm ++
       ("\nEstado Emocional (1-5): " ++ (optNat m.emotional_state ++
       ("\nAmbiente da Gravação: " ++ (optStr m.environment ++
       ("\n\nÁudios de Tarefa Coletados (R2):\n" ++ (audioListStr m.audio_urls ++
       "\n\nPara iniciar uma nova sessão, digite /start.")))))))))))))))))

/-- Result of the pre-dispatch branch chain of `process_whatsapp_message`
(lines 338-423): an early return with the session unchanged, an uncaught
exception, or fall-through to the stage dispatch. -/
inductive Turn where
  | reply (r : String)
  | crash
  | dispatch
deriving DecidableEq

/-- The pre-dispatch branch chain (lines 338-423).  All of its early returns
leave the session unchanged.  In the first branch the source, after a
successful download and (when required) transcription, enters the
original-audio storage block (line 379 requires `s3_client` and
`R2_ENDPOINT_URL_PUBLIC`, both available since the branch guard requires
`s3_client`); line 381 then evaluates the undefined name `message`, raising
a `NameError` that the `except Exception` handler (lines 404-406) converts
into the generic apology reply.  The URL store at line 397 is never
reached. -/
def route (caps : Caps) (oracle : Oracle) (s : Session) (ev : Event) : Turn :=
  if s.interaction_mode = "voice" ∧ truthy ev.audio = true ∧
     caps.asr = true ∧ caps.s3 = true then
    Turn.reply
      (match oracle.mediaInfo with
       | MediaFetch.httpStatusErr => msgDownloadErr
       | MediaFetch.otherErr => msgProcessErr
       | MediaFetch.noUrl => msgGetAudioErr
       | MediaFetch.ok =>
         if s.metadata.current_audio_task ≠ some "silence" then
           if truthy oracle.transcript = false then msgUnderstandErr
           else msgProcessErr
         else msgProcessErr)
  else if s.interaction_mode = "voice" ∧ truthy ev.audio = false ∧
          truthy ev.text = true then
    (if strStarts "awaiting_audio_" s.stage = true then
       match s.metadata.current_audio_task with
       | none => Turn.crash
       | some task => Turn.reply (msgVoiceGotText ++ msgVoiceGotTextAudioSuffix task)
     else Turn.reply msgVoiceGotText)
  else if s.interaction_mode = "text" ∧ truthy ev.audio = true then
    Turn.reply msgTextGotAudio
  else if truthy ev.text = false ∧ truthy ev.audio = false then
    Turn.reply msgNotUnderstood
  else
    Turn.dispatch

/-- Stage `initial` (lines 428-471). -/
def initial_step (caps : Caps) (s : Session) (p : Option String) (un : String) :
    String × Session :=
  if truthy p = true ∧ pyLower (p.getD "") = "texto" then
    (msgTextModeSet un,
     { s with interaction_mode := "text", stage := "awaiting_consent" })
  else if truthy p = true ∧ pyLower (p.getD "") = "voz" then
    if caps.asr = false then
      (msgAsrUnavailable,
       { s with interaction_mode := "text", stage := "awaiting_interaction_mode" })
    else if caps.tts = false then
      (msgTtsUnavailable,
       { s with interaction_mode := "text", stage := "awaiting_interaction_mode" })
    else if caps.s3 = false then
      (msgR2Unavailable,
       { s with interaction_mode := "text", stage := "awaiting_interaction_mode" })
    else
      (msgVoiceModeSet un,
       { s with interaction_mode := "voice", stage := "awaiting_consent" })
  else
    (msgChooseMode, s)

/-- Stage `awaiting_consent` (lines 473-484). -/
def consent_step (s : Session) (p : Option String) : String × Session :=
  if truthy p = true ∧ (pyLower (p.getD "") = "sim" ∨ pyLower (p.getD "") = "s") then
    (msgConsentYes, { s with stage := "awaiting_name" })
  else if truthy p = true ∧ (pyLower (p.getD "") = "não" ∨ pyLower (p.getD "") = "n" ∨
          pyLower (p.getD "") = "nao") then
    (msgConsentNo, { s with stage := "finished" })
  else
    (msgConsentAgain, s)

/-- Stage `awaiting_name` (lines 486-493). -/
def name_step (s : Session) (p : Option String) : String × Session :=
  if truthy p = true then
    (msgNameOk (p.getD ""),
     { s with metadata := { s.metadata with name := some (p.getD "") }
            , stage := "awaiting_age" })
  else
    (msgNameAgain, s)

/-- Stage `awaiting_age` (lines 495-502). -/
def age_step (s : Session) (p : Option String) : String × Session :=
  if truthy p = true ∧ pyIsDigit (p.getD "") = true ∧
     5 ≤ pyToNat (p.getD "") ∧ pyToNat (p.getD "") ≤ 120 then
    (msgAgeOk,
     { s with metadata := { s.metadata with age := some (pyToNat (p.getD "")) }
            , stage := "awaiting_smoking_status" })
  else
    (msgAgeAgain, s)

/-- Stage `awaiting_smoking_status` (lines 504-511). -/
def smoking_step (s : Session) (p : Option String) : String × Session :=
  if truthy p = true ∧ (pyLower (p.getD "") = "fumante" ∨
     pyLower (p.getD "") = "ex-fumante" ∨ pyLower (p.getD "") = "não fumante" ∨
     pyLower (p.getD "") = "nao fumante") then
    (msgSmokingOk,
     { s with metadata := { s.metadata with smoking_status := some (pyLower (p.getD "")) }
            , stage := "awaiting_diagnosis" })
  else
    (msgSmokingAgain, s)

/-- Stage `awaiting_diagnosis` (lines 513-520). -/
def diagnosis_step (s : Session) (p : Option String) : String × Session :=
  if truthy p = true then
    (msgDiagnosisOk,
     { s with metadata := { s.metadata with diagnosis := some (p.getD "") }
            , stage := "awaiting_emotional_state" })
  else
    (msgDiagnosisAgain, s)

/-- Stage `awaiting_emotional_state` (lines 522-529). -/
def emotional_step (s : Session) (p : Option String) : String × Session :=
  if truthy p = true ∧ pyIsDigit (p.getD "") = true ∧
     1 ≤ pyToNat (p.getD "") ∧ pyToNat (p.getD "") ≤ 5 then
    (msgEmotionalOk,
     { s with metadata := { s.metadata with emotional_state := some (pyToNat (p.getD "")) }
            , stage := "awaiting_environment" })
  else
    (msgEmotionalAgain, s)

/-- Stage `awaiting_environment` (lines 531-544): stores the description,
initialises the task queue and moves to `requesting_first_audio_task`
without dequeuing anything yet. -/
def environment_step (s : Session) (p : Option String) : String × Session :=
  if truthy p = true then
    (msgEnvironmentOk,
     { s with metadata := { s.metadata with environment := some (p.getD "") }
            , tasks_queue := taskCatalog
            , stage := "requesting_first_audio_task" })
  else
    (msgEnvironmentAgain, s)

/-- Stages `awaiting_audio_<task>` (lines 547-569).  When audio is present
the source assumes the upload already happened in the pre-dispatch block
(it did not: the `NameError` at line 381 prevented it) and only advances the
queue; `none` models the uncaught `AttributeError` raised by
`task_type.replace` when `current_audio_task` is `None`. -/
def audio_stage_step (s : Session) (hasAudio : Bool) : Option (String × Session) :=
  if hasAudio then
    match s.metadata.current_audio_task with
    | none => none
    | some task =>
      match s.tasks_queue with
      | next :: rest =>
        some (msgAudioReceived task ++ "\n" ++ get_task_prompt next,
              { s with stage := "awaiting_audio_" ++ next
                     , tasks_queue := rest
                     , metadata := { s.metadata with current_audio_task := some next } })
      | [] =>
        match get_completion_message s.metadata with
        | none => none
        | some comp =>
          some (msgAudioReceived task ++ "\n" ++ comp,
                { s with stage := "finished_tasks"
                       , metadata := { s.metadata with current_audio_task := none } })
  else
    match s.metadata.current_audio_task with
    | none => none
    | some task => some (msgAudioAgain task, s)

/-- Stage `requesting_first_audio_task` (lines 571-582): consumed on the
next inbound event, whatever it is. -/
def requesting_step (s : Session) : Option (String × Session) :=
  match s.tasks_queue with
  | next :: rest =>
    some (get_task_prompt next,
          { s with stage := "awaiting_audio_" ++ next
                 , tasks_queue := rest
                 , metadata := { s.metadata with current_audio_task := some next } })
  | [] =>
    match get_completion_message s.metadata with
    | none => none
    | some comp => some (comp, { s with stage := "finished_tasks" })

/-- Stage `finished_tasks` (lines 584-590): a `/start` here is already
intercepted by line 328, so the inner reset branch is dead but kept; any
other input advances the stage to `finished`. -/
def finished_tasks_step (s : Session) (p : Option String) (uid un : String) :
    String × Session :=
  if truthy p = true ∧ pyLower (p.getD "") = "/start" then
    (msgWelcome, init_user_state uid un)
  else
    (msgTasksDone, { s with stage := "finished" })

/-- Stage `finished` (lines 592-597). -/
def finished_step (s : Session) (p : Option String) (uid un : String) :
    String × Session :=
  if truthy p = true ∧ pyLower (p.getD "") = "/start" then
    (msgWelcome, init_user_state uid un)
  else
    (msgFinished, s)

/-- The stage dispatch chain of `process_whatsapp_message` (lines 428-598),
in source order; an unrecognised stage matches no branch, so the source
returns the initial empty `response_text` with the session unchanged. -/
def stageLogic (caps : Caps) (s : Session) (p : Option String) (hasAudio : Bool)
    (uid un : String) : Option (String × Session) :=
  if s.stage = "initial" then some (initial_step caps s p un)
  else if s.stage = "awaiting_consent" then some (consent_step s p)
  else if s.stage = "awaiting_name" then some (name_step s p)
  else if s.stage = "awaiting_age" then some (age_step s p)
  else if s.stage = "awaiting_smoking_status" then some (smoking_step s p)
  else if s.stage = "awaiting_diagnosis" then some (diagnosis_step s p)
  else if s.stage = "awaiting_emotional_state" then some (emotional_step s p)
  else if s.stage = "awaiting_environment" then some (environment_step s p)
  else if strStarts "awaiting_audio_" s.stage = true then audio_stage_step s hasAudio
  else if s.stage = "requesting_first_audio_task" then requesting_step s
  else if s.stage = "finished_tasks" then some (finished_tasks_step s p uid un)
  else if s.stage = "finished" then some (finished_step s p uid un)
  else some ("", s)

/-- Is the inbound text the reset command (line 328:
`user_input_text and user_input_text.lower() == "/start"`)? -/
def isStartCmd : Option String → Bool
  | none => false
  | some t => truthyStr t && (if pyLower t = "/start" then true else false)

/-- The message-processing entry point (`process_whatsapp_message`,
lines 320-602).  `store` is the current `user_states` entry for the sender
(`none` when absent); the function returns the reply together with the
session record written back to the store, or `none` for an uncaught
exception. -/
def process_whatsapp_message (caps : Caps) (oracle : Oracle)
    (store : Option Session) (uid un : String) (ev : Event) :
    Option (String × Session) :=
  match store with
  | none => some (msgWelcome, init_user_state uid un)
  | some s =>
    if isStartCmd ev.text = true then some (msgWelcome, init_user_state uid un)
    else
      match route caps oracle s ev with
      | Turn.reply r => some (r, s)
      | Turn.crash => none
      | Turn.dispatch => stageLogic caps s ev.text (truthy ev.audio) uid un

/-- Nodes of the transition graph of spec §4.1 (comparison definition for
the invariant claims; written from the spec's list of stages). -/
def specGraphNode (st : String) : Bool :=
  (["initial", "awaiting_consent", "awaiting_name", "awaiting_age",
    "awaiting_smoking_status", "awaiting_diagnosis", "awaiting_emotional_state",
    "awaiting_environment", "requesting_first_audio_task", "finished_tasks",
    "finished"].contains st) ||
  ((taskCatalog.map (fun t => "awaiting_audio_" ++ t)).contains st)

/-- The stage values the code can actually hold: the spec's graph nodes plus
the dead stage `awaiting_interaction_mode` written at lines 446, 451, 456. -/
def extGraphNode (st : String) : Bool :=
  specGraphNode st || (if st = "awaiting_interaction_mode" then true else false)

/-- Edges of the §4.1 transition graph (comparison definition): the linear
chain, the consent branch, reset edges, and the audio-task family (the spec
fixes the successor of `awaiting_audio_<k>` to the next catalog task along a
real run; over all states whose queue draws from the catalog the successor
ranges over the catalog). -/
def specEdges : List (String × String) :=
  [("initial", "awaiting_consent"),
   ("awaiting_consent", "awaiting_name"),
   ("awaiting_consent", "finished"),
   ("awaiting_name", "awaiting_age"),
   ("awaiting_age", "awaiting_smoking_status"),
   ("awaiting_smoking_status", "awaiting_diagnosis"),
   ("awaiting_diagnosis", "awaiting_emotional_state"),
   ("awaiting_emotional_state", "awaiting_environment"),
   ("awaiting_environment", "requesting_first_audio_task"),
   ("finished_tasks", "finished"),
   ("finished_tasks", "initial"),
   ("finished", "initial")] ++
  (taskCatalog.map (fun t => ("requesting_first_audio_task", "awaiting_audio_" ++ t))) ++
  (taskCatalog.flatMap (fun t => taskCatalog.map
    (fun u => ("awaiting_audio_" ++ t, "awaiting_audio_" ++ u)))) ++
  (taskCatalog.map (fun t => ("awaiting_audio_" ++ t, "finished_tasks")))

/-- Membership in the §4.1 edge set. -/
def specEdge (a b : String) : Bool := specEdges.contains (a, b)

/-- The state invariant the code maintains: the stage is one of the values
the code writes, queued tasks come from the catalog, and the queue is
non-empty whenever the stage is `requesting_first_audio_task` (that stage is
only entered from `awaiting_environment`, which fills the queue). -/
def SessionInv (s : Session) : Prop :=
  extGraphNode s.stage = true ∧
  (∀ t ∈ s.tasks_queue, t ∈ taskCatalog) ∧
  (s.stage = "requesting_first_audio_task" → s.tasks_queue ≠ [])

lemma sessionInv_init (uid un : String) : SessionInv (init_user_state uid un) := by
  refine ⟨?_, ?_, ?_⟩
  · show extGraphNode "initial" = true
    decide
  · intro t ht
    simp [init_user_state] at ht
  · show "initial" = "requesting_first_audio_task" → ([] : List String) ≠ []
    decide

lemma stage_ne_of_audioStarts {s : Session} (L : String)
    (h1 : strStarts "awaiting_audio_" s.stage = true)
    (hL : strStarts "awaiting_audio_" L = false) : s.stage ≠ L := by
  intro he
  rw [he, hL] at h1
  cases h1

lemma stageLogic_at_initial (caps : Caps) (s : Session) (p : Option String)
    (a : Bool) (uid un : String) (h : s.stage = "initial") :
    stageLogic caps s p a uid un = some (initial_step caps s p un) := by
  unfold stageLogic
  rw [h]
  simp

lemma stageLogic_at_consent (caps : Caps) (s : Session) (p : Option String)
    (a : Bool) (uid un : String) (h : s.stage = "awaiting_consent") :
    stageLogic caps s p a uid un = some (consent_step s p) := by
  unfold stageLogic
  rw [h]
  simp

lemma stageLogic_at_name (caps : Caps) (s : Session) (p : Option String)
    (a : Bool) (uid un : String) (h : s.stage = "awaiting_name") :
    stageLogic caps s p a uid un = some (name_step s p) := by
  unfold stageLogic
  rw [h]
  simp

lemma stageLogic_at_age (caps : Caps) (s : Session) (p : Option String)
    (a : Bool) (uid un : String) (h : s.stage = "awaiting_age") :
    stageLogic caps s p a uid un = some (age_step s p) := by
  unfold stageLogic
  rw [h]
  simp

lemma stageLogic_at_smoking (caps : Caps) (s : Session) (p : Option String)
    (a : Bool) (uid un : String) (h : s.stage = "awaiting_smoking_status") :
    stageLogic caps s p a uid un = some (smoking_step s p) := by
  unfold stageLogic
  rw [h]
  simp

lemma stageLogic_at_diagnosis (caps : Caps) (s : Session) (p : Option String)
    (a : Bool) (uid un : String) (h : s.stage = "awaiting_diagnosis") :
    stageLogic caps s p a uid un = some (diagnosis_step s p) := by
  unfold stageLogic
  rw [h]
  simp

lemma stageLogic_at_emotional (caps : Caps) (s : Session) (p : Option String)
    (a : Bool) (uid un : String) (h : s.stage = "awaiting_emotional_state") :
    stageLogic caps s p a uid un = some (emotional_step s p) := by
  unfold stageLogic
  rw [h]
  simp

lemma stageLogic_at_environment (caps : Caps) (s : Session) (p : Option String)
    (a : Bool) (uid un : String) (h : s.stage = "awaiting_environment") :
    stageLogic caps s p a uid un = some (environment_step s p) := by
  unfold stageLogic
  rw [h]
  simp

lemma stageLogic_at_audio (caps : Caps) (s : Session) (p : Option String)
    (a : Bool) (uid un : String)
    (h1 : strStarts "awaiting_audio_" s.stage = true) :
    stageLogic caps s p a uid un = audio_stage_step s a := by
  have n1 := stage_ne_of_audioStarts "initial" h1 (by decide)
  have n2 := stage_ne_of_audioStarts "awaiting_consent" h1 (by decide)
  have n3 := stage_ne_of_audioStarts "awaiting_name" h1 (by decide)
  have n4 := stage_ne_of_audioStarts "awaiting_age" h1 (by decide)
  have n5 := stage_ne_of_audioStarts "awaiting_smoking_status" h1 (by decide)
  have n6 := stage_ne_of_audioStarts "awaiting_diagnosis" h1 (by decide)
  have n7 := stage_ne_of_audioStarts "awaiting_emotional_state" h1 (by decide)
  have n8 := stage_ne_of_audioStarts "awaiting_environment" h1 (by decide)
  unfold stageLogic
  simp [n1, n2, n3, n4, n5, n6, n7, n8, h1]

lemma stageLogic_at_requesting (caps : Caps) (s : Session) (p : Option String)
    (a : Bool) (uid un : String) (h : s.stage = "requesting_first_audio_task") :
    stageLogic caps s p a uid un = requesting_step s := by
  unfold stageLogic
  rw [h]
  have hs : strStarts "awaiting_audio_" "requesting_first_audio_task" = false := by decide
  simp [hs]

lemma stageLogic_at_finished_tasks (caps : Caps) (s : Session) (p : Option String)
    (a : Bool) (uid un : String) (h : s.stage = "finished_tasks") :
    stageLogic caps s p a uid un = some (finished_tasks_step s p uid un) := by
  unfold stageLogic
  rw [h]
  have hs : strStarts "awaiting_audio_" "finished_tasks" = false := by decide
  simp [hs]

lemma stageLogic_at_finished (caps : Caps) (s : Session) (p : Option String)
    (a : Bool) (uid un : String) (h : s.stage = "finished") :
    stageLogic caps s p a uid un = some (finished_step s p uid un) := by
  unfold stageLogic
  rw [h]
  have hs : strStarts "awaiting_audio_" "finished" = false := by decide
  simp [hs]

lemma stageLogic_at_dead (caps : Caps) (s : Session) (p : Option String)
    (a : Bool) (uid un : String) (h : s.stage = "awaiting_interaction_mode") :
    stageLogic caps s p a uid un = some ("", s) := by
  unfold stageLogic
  rw [h]
  have hs : strStarts "awaiting_audio_" "awaiting_interaction_mode" = false := by decide
  simp [hs]

lemma extGraphNode_audio {t : String} (ht : t ∈ taskCatalog) :
    extGraphNode ("awaiting_audio_" ++ t) = true := by
  simp [taskCatalog] at ht
  rcases ht with rfl | rfl | rfl | rfl | rfl | rfl | rfl | rfl <;> decide

lemma audio_ne_requesting {t : String} (ht : t ∈ taskCatalog) :
    ("awaiting_audio_" ++ t) ≠ "requesting_first_audio_task" := by
  simp [taskCatalog] at ht
  rcases ht with rfl | rfl | rfl | rfl | rfl | rfl | rfl | rfl <;> decide

lemma specEdge_req_audio {t : String} (ht : t ∈ taskCatalog) :
    specEdge "requesting_first_audio_task" ("awaiting_audio_" ++ t) = true := by
  simp [taskCatalog] at ht
  rcases ht with rfl | rfl | rfl | rfl | rfl | rfl | rfl | rfl <;> decide

lemma specEdge_audio_audio {t u : String} (ht : t ∈ taskCatalog)
    (hu : u ∈ taskCatalog) :
    specEdge ("awaiting_audio_" ++ t) ("awaiting_audio_" ++ u) = true := by
  simp [taskCatalog] at ht hu
  rcases ht with rfl | rfl | rfl | rfl | rfl | rfl | rfl | rfl <;>
    rcases hu with rfl | rfl | rfl | rfl | rfl | rfl | rfl | rfl <;> decide

lemma specEdge_audio_ft {t : String} (ht : t ∈ taskCatalog) :
    specEdge ("awaiting_audio_" ++ t) "finished_tasks" = true := by
  simp [taskCatalog] at ht
  rcases ht with rfl | rfl | rfl | rfl | rfl | rfl | rfl | rfl <;> decide

/-- Payload proved about each accepted transition for the stage-invariant
claim: the successor session satisfies the invariant and its stage relates
to the predecessor as the (amended) transition discipline requires. -/
def StagePost (s s1 : Session) : Prop :=
  SessionInv s1 ∧
  (s1.stage = s.stage ∨ s1.stage = "initial" ∨ specEdge s.stage s1.stage = true ∨
   (s.stage = "initial" ∧ s1.stage = "awaiting_interaction_mode"))

lemma simpleBranchPost (s : Session) (inv : SessionInv s) (src dst : String)
    (md : Metadata) (im : String) (h0 : s.stage = src)
    (hn : extGraphNode dst = true) (hns : dst ≠ "requesting_first_audio_task")
    (he : specEdge src dst = true) :
    StagePost s ⟨dst, md, s.tasks_queue, im⟩ :=
  ⟨⟨hn, fun t ht => inv.2.1 t ht, fun hx => absurd hx hns⟩,
   Or.inr (Or.inr (Or.inl (by rw [h0]; exact he)))⟩

lemma deadBranchPost (s : Session) (inv : SessionInv s) (md : Metadata)
    (im : String) (h0 : s.stage = "initial") :
    StagePost s ⟨"awaiting_interaction_mode", md, s.tasks_queue, im⟩ := by
  refine ⟨⟨?_, fun t ht => inv.2.1 t ht, ?_⟩, Or.inr (Or.inr (Or.inr ⟨h0, rfl⟩))⟩
  · show extGraphNode "awaiting_interaction_mode" = true
    decide
  · show "awaiting_interaction_mode" = "requesting_first_audio_task" → _
    intro hx
    exact absurd hx (by decide)

lemma unchangedPost (s : Session) (inv : SessionInv s) : StagePost s s :=
  ⟨inv, Or.inl rfl⟩

lemma resetPost (s : Session) (uid un : String) :
    StagePost s (init_user_state uid un) :=
  ⟨sessionInv_init uid un, Or.inr (Or.inl rfl)⟩

lemma c2post_initial (caps : Caps) (s : Session) (p : Option String) (un : String)
    (r : String) (s1 : Session) (inv : SessionInv s) (h0 : s.stage = "initial")
    (h : initial_step caps s p un = (r, s1)) : StagePost s s1 := by
  unfold initial_step at h
  split_ifs at h <;> injection h with h1 h2 <;> subst h2
  · exact simpleBranchPost s inv "initial" "awaiting_consent" _ _ h0 (by decide)
      (by decide) (by decide)
  · exact deadBranchPost s inv _ _ h0
  · exact deadBranchPost s inv _ _ h0
  · exact deadBranchPost s inv _ _ h0
  · exact simpleBranchPost s inv "initial" "awaiting_consent" _ _ h0 (by decide)
      (by decide) (by decide)
  · exact unchangedPost s inv

lemma c2post_consent (s : Session) (p : Option String) (r : String) (s1 : Session)
    (inv : SessionInv s) (h0 : s.stage = "awaiting_consent")
    (h : consent_step s p = (r, s1)) : StagePost s s1 := by
  unfold consent_step at h
  split_ifs at h <;> injection h with h1 h2 <;> subst h2
  · exact simpleBranchPost s inv "awaiting_consent" "awaiting_name" _ _ h0
      (by decide) (by decide) (by decide)
  · exact simpleBranchPost s inv "awaiting_consent" "finished" _ _ h0
      (by decide) (by decide) (by decide)
  · exact unchangedPost s inv

lemma c2post_name (s : Session) (p : Option String) (r : String) (s1 : Session)
    (inv : SessionInv s) (h0 : s.stage = "awaiting_name")
    (h : name_step s p = (r, s1)) : StagePost s s1 := by
  unfold name_step at h
  split_ifs at h <;> injection h with h1 h2 <;> subst h2
  · exact simpleBranchPost s inv "awaiting_name" "awaiting_age" _ _ h0
      (by decide) (by decide) (by decide)
  · exact unchangedPost s inv

lemma c2post_age (s : Session) (p : Option String) (r : String) (s1 : Session)
    (inv : SessionInv s) (h0 : s.stage = "awaiting_age")
    (h : age_step s p = (r, s1)) : StagePost s s1 := by
  unfold age_step at h
  split_ifs at h <;> injection h with h1 h2 <;> subst h2
  · exact simpleBranchPost s inv "awaiting_age" "awaiting_smoking_status" _ _ h0
      (by decide) (by decide) (by decide)
  · exact unchangedPost s inv

lemma c2post_smoking (s : Session) (p : Option String) (r : String) (s1 : Session)
    (inv : SessionInv s) (h0 : s.stage = "awaiting_smoking_status")
    (h : smoking_step s p = (r, s1)) : StagePost s s1 := by
  unfold smoking_step at h
  split_ifs at h <;> injection h with h1 h2 <;> subst h2
  · exact simpleBranchPost s inv "awaiting_smoking_status" "awaiting_diagnosis" _ _ h0
      (by decide) (by decide) (by decide)
  · exact unchangedPost s inv

lemma c2post_diagnosis (s : Session) (p : Option String) (r : String) (s1 : Session)
    (inv : SessionInv s) (h0 : s.stage = "awaiting_diagnosis")
    (h : diagnosis_step s p = (r, s1)) : StagePost s s1 := by
  unfold diagnosis_step at h
  split_ifs at h <;> injection h with h1 h2 <;> subst h2
  · exact simpleBranchPost s inv "awaiting_diagnosis" "awaiting_emotional_state" _ _ h0
      (by decide) (by decide) (by decide)
  · exact unchangedPost s inv

lemma c2post_emotional (s : Session) (p : Option String) (r : String) (s1 : Session)
    (inv : SessionInv s) (h0 : s.stage = "awaiting_emotional_state")
    (h : emotional_step s p = (r, s1)) : StagePost s s1 := by
  unfold emotional_step at h
  split_ifs at h <;> injection h with h1 h2 <;> subst h2
  · exact simpleBranchPost s inv "awaiting_emotional_state" "awaiting_environment" _ _ h0
      (by decide) (by decide) (by decide)
  · exact unchangedPost s inv

lemma c2post_environment (s : Session) (p : Option String) (r : String) (s1 : Session)
    (inv : SessionInv s) (h0 : s.stage = "awaiting_environment")
    (h : environment_step s p = (r, s1)) : StagePost s s1 := by
  unfold environment_step at h
  split_ifs at h <;> injection h with h1 h2 <;> subst h2
  · refine ⟨⟨?_, fun t ht => ht, ?_⟩, ?_⟩
    · show extGraphNode "requesting_first_audio_task" = true
      decide
    · intro _
      show taskCatalog ≠ []
      decide
    · rw [h0]
      refine Or.inr (Or.inr (Or.inl ?_))
      show specEdge "awaiting_environment" "requesting_first_audio_task" = true
      decide
  · exact unchangedPost s inv

lemma c2post_finished_tasks (s : Session) (p : Option String) (uid un : String)
    (r : String) (s1 : Session) (inv : SessionInv s)
    (h0 : s.stage = "finished_tasks")
    (h : finished_tasks_step s p uid un = (r, s1)) : StagePost s s1 := by
  unfold finished_tasks_step at h
  split_ifs at h <;> injection h with h1 h2 <;> subst h2
  · exact resetPost s uid un
  · exact simpleBranchPost s inv "finished_tasks" "finished" _ _ h0
      (by decide) (by decide) (by decide)

lemma c2post_finished (s : Session) (p : Option String) (uid un : String)
    (r : String) (s1 : Session) (inv : SessionInv s)
    (h : finished_step s p uid un = (r, s1)) : StagePost s s1 := by
  unfold finished_step at h
  split_ifs at h <;> injection h with h1 h2 <;> subst h2
  · exact resetPost s uid un
  · exact unchangedPost s inv

lemma c2post_audio (s : Session) (a : Bool) (r : String) (s1 : Session)
    (inv : SessionInv s) (t : String) (ht : t ∈ taskCatalog)
    (h0 : s.stage = "awaiting_audio_" ++ t)
    (h : audio_stage_step s a = some (r, s1)) : StagePost s s1 := by
  unfold audio_stage_step at h
  cases a with
  | false =>
    simp only [Bool.false_eq_true, if_false] at h
    cases hct : s.metadata.current_audio_task with
    | none => rw [hct] at h; cases h
    | some task =>
      rw [hct] at h
      injection h with h1
      injection h1 with hr hs
      subst hs
      exact unchangedPost s inv
  | true =>
    simp only [if_true] at h
    cases hct : s.metadata.current_audio_task with
    | none => rw [hct] at h; cases h
    | some task =>
      rw [hct] at h
      cases hq : s.tasks_queue with
      | nil =>
        rw [hq] at h
        cases hcm : get_completion_message s.metadata with
        | none => rw [hcm] at h; cases h
        | some comp =>
          rw [hcm] at h
          injection h with h1
          injection h1 with hr hs
          subst hs
          refine ⟨⟨?_, ?_, ?_⟩, ?_⟩
          · show extGraphNode "finished_tasks" = true
            decide
          · intro u hu
            exact absurd hu (List.not_mem_nil u)
          · show "finished_tasks" = "requesting_first_audio_task" → _
            intro hx
            exact absurd hx (by decide)
          · rw [h0]
            exact Or.inr (Or.inr (Or.inl (specEdge_audio_ft ht)))
      | cons next rest =>
        rw [hq] at h
        injection h with h1
        injection h1 with hr hs
        subst hs
        have hnext : next ∈ taskCatalog := inv.2.1 next (by rw [hq]; exact List.mem_cons_self next rest)
        refine ⟨⟨?_, ?_, ?_⟩, ?_⟩
        · exact extGraphNode_audio hnext
        · intro u hu
          exact inv.2.1 u (by rw [hq]; exact List.mem_cons_of_mem next hu)
        · intro hx
          exact absurd hx (audio_ne_requesting hnext)
        · rw [h0]
          exact Or.inr (Or.inr (Or.inl (specEdge_audio_audio ht hnext)))

lemma c2post_requesting (s : Session) (r : String) (s1 : Session)
    (inv : SessionInv s) (h0 : s.stage = "requesting_first_audio_task")
    (h : requesting_step s = some (r, s1)) : StagePost s s1 := by
  unfold requesting_step at h
  cases hq : s.tasks_queue with
  | nil => exact absurd hq (inv.2.2 h0)
  | cons next rest =>
    rw [hq] at h
    injection h with h1
    injection h1 with hr hs
    subst hs
    have hnext : next ∈ taskCatalog := inv.2.1 next (by rw [hq]; exact List.mem_cons_self next rest)
    refine ⟨⟨?_, ?_, ?_⟩, ?_⟩
    · exact extGraphNode_audio hnext
    · intro u hu
      exact inv.2.1 u (by rw [hq]; exact List.mem_cons_of_mem next hu)
    · intro hx
      exact absurd hx (audio_ne_requesting hnext)
    · rw [h0]
      exact Or.inr (Or.inr (Or.inl (specEdge_req_audio hnext)))

lemma extGraphNode_cases {st : String} (h : extGraphNode st = true) :
    st = "initial" ∨ st = "awaiting_consent" ∨ st = "awaiting_name" ∨
    st = "awaiting_age" ∨ st = "awaiting_smoking_status" ∨
    st = "awaiting_diagnosis" ∨ st = "awaiting_emotional_state" ∨
    st = "awaiting_environment" ∨ st = "requesting_first_audio_task" ∨
    st = "finished_tasks" ∨ st = "finished" ∨
    st = "awaiting_audio_silence" ∨ st = "awaiting_audio_vogal_a" ∨
    st = "awaiting_audio_vogal_e" ∨ st = "awaiting_audio_vogal_i" ∨
    st = "awaiting_audio_vogal_o" ∨ st = "awaiting_audio_fricativo_s" ∨
    st = "awaiting_audio_fricativo_z" ∨ st = "awaiting_audio_sentence_read" ∨
    st = "awaiting_interaction_mode" := by
  unfold extGraphNode specGraphNode taskCatalog at h
  simp at h
  tauto

/-- C2, corrected claim, positive part: for every session satisfying the
session invariant, a processed event yields a session that again satisfies
the invariant, and whose stage is either unchanged, `initial` (reset), a
§4.1 graph successor, or — the deviation from the spec — the unhandled
stage `awaiting_interaction_mode`, entered from `initial` on input `voz`
when a voice capability is missing (lines 446, 451, 456). -/
theorem C2_stage_transition_discipline (caps : Caps) (oracle : Oracle)
    (s : Session) (uid un : String) (ev : Event) (r : String) (s1 : Session)
    (inv : SessionInv s)
    (h : process_whatsapp_message caps oracle (some s) uid un ev = some (r, s1)) :
    SessionInv s1 ∧
    (s1.stage = s.stage ∨ s1.stage = "initial" ∨ specEdge s.stage s1.stage = true ∨
     (s.stage = "initial" ∧ s1.stage = "awaiting_interaction_mode")) := by
  simp only [process_whatsapp_message] at h
  split_ifs at h with hstart
  · injection h with h1
    injection h1 with hr hs
    subst hs
    exact resetPost s uid un
  · cases hr : route caps oracle s ev with
    | reply rr =>
      rw [hr] at h
      injection h with h1
      injection h1 with h2 h3
      subst h3
      exact unchangedPost s inv
    | crash => rw [hr] at h; cases h
    | dispatch =>
      rw [hr] at h
      rcases extGraphNode_cases inv.1 with
        h0|h0|h0|h0|h0|h0|h0|h0|h0|h0|h0|h0|h0|h0|h0|h0|h0|h0|h0|h0
      · rw [stageLogic_at_initial caps s ev.text (truthy ev.audio) uid un h0] at h
        injection h with h1
        exact c2post_initial caps s ev.text un r s1 inv h0 h1
      · rw [stageLogic_at_consent caps s ev.text (truthy ev.audio) uid un h0] at h
        injection h with h1
        exact c2post_consent s ev.text r s1 inv h0 h1
      · rw [stageLogic_at_name caps s ev.text (truthy ev.audio) uid un h0] at h
        injection h with h1
        exact c2post_name s ev.text r s1 inv h0 h1
      · rw [stageLogic_at_age caps s ev.text (truthy ev.audio) uid un h0] at h
        injection h with h1
        exact c2post_age s ev.text r s1 inv h0 h1
      · rw [stageLogic_at_smoking caps s ev.text (truthy ev.audio) uid un h0] at h
        injection h with h1
        exact c2post_smoking s ev.text r s1 inv h0 h1
      · rw [stageLogic_at_diagnosis caps s ev.text (truthy ev.audio) uid un h0] at h
        injection h with h1
        exact c2post_diagnosis s ev.text r s1 inv h0 h1
      · rw [stageLogic_at_emotional caps s ev.text (truthy ev.audio) uid un h0] at h
        injection h with h1
        exact c2post_emotional s ev.text r s1 inv h0 h1
      · rw [stageLogic_at_environment caps s ev.text (truthy ev.audio) uid un h0] at h
        injection h with h1
        exact c2post_environment s ev.text r s1 inv h0 h1
      · rw [stageLogic_at_requesting caps s ev.text (truthy ev.audio) uid un h0] at h
        exact c2post_requesting s r s1 inv h0 h
      · rw [stageLogic_at_finished_tasks caps s ev.text (truthy ev.audio) uid un h0] at h
        injection h with h1
        exact c2post_finished_tasks s ev.text uid un r s1 inv h0 h1
      · rw [stageLogic_at_finished caps s ev.text (truthy ev.audio) uid un h0] at h
        injection h with h1
        exact c2post_finished s ev.text uid un r s1 inv h1
      · have hss : strStarts "awaiting_audio_" s.stage = true := by rw [h0]; decide
        rw [stageLogic_at_audio caps s ev.text (truthy ev.audio) uid un hss] at h
        exact c2post_audio s (truthy ev.audio) r s1 inv "silence" (by decide) h0 h
      · have hss : strStarts "awaiting_audio_" s.stage = true := by rw [h0]; decide
        rw [stageLogic_at_audio caps s ev.text (truthy ev.audio) uid un hss] at h
        exact c2post_audio s (truthy ev.audio) r s1 inv "vogal_a" (by decide) h0 h
      · have hss : strStarts "awaiting_audio_" s.stage = true := by rw [h0]; decide
        rw [stageLogic_at_audio caps s ev.text (truthy ev.audio) uid un hss] at h
        exact c2post_audio s (truthy ev.audio) r s1 inv "vogal_e" (by decide) h0 h
      · have hss : strStarts "awaiting_audio_" s.stage = true := by rw [h0]; decide
        rw [stageLogic_at_audio caps s ev.text (truthy ev.audio) uid un hss] at h
        exact c2post_audio s (truthy ev.audio) r s1 inv "vogal_i" (by decide) h0 h
      · have hss : strStarts "awaiting_audio_" s.stage = true := by rw [h0]; decide
        rw [stageLogic_at_audio caps s ev.text (truthy ev.audio) uid un hss] at h
        exact c2post_audio s (truthy ev.audio) r s1 inv "vogal_o" (by decide) h0 h
      · have hss : strStarts "awaiting_audio_" s.stage = true := by rw [h0]; decide
        rw [stageLogic_at_audio caps s ev.text (truthy ev.audio) uid un hss] at h
        exact c2post_audio s (truthy ev.audio) r s1 inv "fricativo_s" (by decide) h0 h
      · have hss : strStarts "awaiting_audio_" s.stage = true := by rw [h0]; decide
        rw [stageLogic_at_audio caps s ev.text (truthy ev.audio) uid un hss] at h
        exact c2post_audio s (truthy ev.audio) r s1 inv "fricativo_z" (by decide) h0 h
      · have hss : strStarts "awaiting_audio_" s.stage = true := by rw [h0]; decide
        rw [stageLogic_at_audio caps s ev.text (truthy ev.audio) uid un hss] at h
        exact c2post_audio s (truthy ev.audio) r s1 inv "sentence_read" (by decide) h0 h
      · rw [stageLogic_at_dead caps s ev.text (truthy ev.audio) uid un h0] at h
        injection h with h1
        injection h1 with h2 h3
        subst h3
        exact unchangedPost s inv

/-- C2, counterexample to the claim as stated: at stage `initial`, input
`voz` with ASR unavailable moves the session to stage
`awaiting_interaction_mode`, which is not a node of the §4.1 graph, is not
the old stage, and is not the table successor `awaiting_consent`. -/
theorem C2_counterexample :
    ∃ r s1, process_whatsapp_message ⟨false, true, true⟩ ⟨MediaFetch.ok, none⟩
        (some (init_user_state "u" "u")) "u" "u" ⟨some "voz", none⟩ = some (r, s1) ∧
      s1.stage = "awaiting_interaction_mode" ∧
      specGraphNode s1.stage = false ∧
      s1.stage ≠ (init_user_state "u" "u").stage ∧
      s1.stage ≠ "awaiting_consent" := by
  refine ⟨_, _, rfl, rfl, ?_, ?_, ?_⟩ <;> decide

/-- Witness for `C2_stage_transition_discipline` at a concrete input. -/
theorem C2_witness :
    SessionInv { init_user_state "u" "u" with
                   interaction_mode := "text", stage := "awaiting_consent" } ∧
    (({ init_user_state "u" "u" with
          interaction_mode := "text", stage := "awaiting_consent" } : Session).stage =
        (init_user_state "u" "u").stage ∨
     ({ init_user_state "u" "u" with
          interaction_mode := "text", stage := "awaiting_consent" } : Session).stage =
        "initial" ∨
     specEdge (init_user_state "u" "u").stage
        ({ init_user_state "u" "u" with
             interaction_mode := "text", stage := "awaiting_consent" } : Session).stage = true ∨
     ((init_user_state "u" "u").stage = "initial" ∧
      ({ init_user_state "u" "u" with
           interaction_mode := "text", stage := "awaiting_consent" } : Session).stage =
         "awaiting_interaction_mode")) :=
  C2_stage_transition_discipline ⟨true, true, true⟩ ⟨MediaFetch.ok, none⟩
    (init_user_state "u" "u") "u" "u" ⟨some "texto", none⟩ (msgTextModeSet "u")
    { init_user_state "u" "u" with interaction_mode := "text", stage := "awaiting_consent" }
    (sessionInv_init "u" "u") rfl

lemma route_voice_audio (caps : Caps) (oracle : Oracle) (s : Session) (m : String)
    (hmode : s.interaction_mode = "voice") (hm : m ≠ "")
    (hasr : caps.asr = true) (hs3 : caps.s3 = true) :
    ∃ rep, route caps oracle s ⟨none, some m⟩ = Turn.reply rep ∧
      (oracle.mediaInfo = MediaFetch.ok →
        (s.metadata.current_audio_task = some "silence" ∨ truthy oracle.transcript = true) →
        rep = msgProcessErr) := by
  have hguard : s.interaction_mode = "voice" ∧
      truthy (Event.mk none (some m)).audio = true ∧
      caps.asr = true ∧ caps.s3 = true := by
    refine ⟨hmode, ?_, hasr, hs3⟩
    simp [truthy, truthyStr, hm]
  unfold route
  rw [if_pos hguard]
  refine ⟨_, rfl, ?_⟩
  intro hok hsil
  rw [hok]
  rcases hsil with hs | ht
  · simp [hs]
  · by_cases hcs : s.metadata.current_audio_task = some "silence"
    · simp [hcs]
    · simp [hcs, ht]

lemma isStartCmd_false {t : String} (hstart : pyLower t ≠ "/start") :
    isStartCmd (some t) = false := by
  simp [isStartCmd, hstart]

lemma route_text_text (caps : Caps) (oracle : Oracle) (s : Session) (t : String)
    (hmode : s.interaction_mode = "text") (ht : t ≠ "") :
    route caps oracle s ⟨some t, none⟩ = Turn.dispatch := by
  unfold route
  rw [if_neg (by simp [hmode]), if_neg (by simp [hmode]),
      if_neg (by simp [truthy]), if_neg (by simp [truthy, truthyStr, ht])]

lemma process_dispatch_text (caps : Caps) (oracle : Oracle) (s : Session)
    (uid un t : String) (hmode : s.interaction_mode = "text") (ht : t ≠ "")
    (hstart : pyLower t ≠ "/start") :
    process_whatsapp_message caps oracle (some s) uid un ⟨some t, none⟩ =
      stageLogic caps s (some t) false uid un := by
  simp only [process_whatsapp_message]
  rw [if_neg (by simp [isStartCmd_false hstart]),
      route_text_text caps oracle s t hmode ht]
  rfl

/-- C1: for every voice-mode session (voice mode is only ever selected when
ASR and R2 are available, and the collaborator handles never change within a
run), processing a pure audio message stores no URL, advances no stage, and
leaves the whole session record unchanged: every path of the audio block
either fails early or reaches line 381, where evaluating the undefined name
`message` raises a `NameError` that the handler at line 404 turns into the
generic apology.  On the nominal path (media fetched, and transcription
successful or the current task is `silence`) the reply is exactly that
generic apology. -/
theorem C1_voice_audio_turn_is_noop (caps : Caps) (oracle : Oracle)
    (s : Session) (uid un m : String)
    (hmode : s.interaction_mode = "voice") (hm : m ≠ "")
    (hasr : caps.asr = true) (hs3 : caps.s3 = true) :
    ∃ rep, process_whatsapp_message caps oracle (some s) uid un ⟨none, some m⟩ =
        some (rep, s) ∧
      (oracle.mediaInfo = MediaFetch.ok →
        (s.metadata.current_audio_task = some "silence" ∨ truthy oracle.transcript = true) →
        rep = msgProcessErr) := by
  obtain ⟨rep, hroute, himpl⟩ := route_voice_audio caps oracle s m hmode hm hasr hs3
  refine ⟨rep, ?_, himpl⟩
  simp only [process_whatsapp_message]
  rw [if_neg (by simp [isStartCmd]), hroute]

/-- Witness for `C1_voice_audio_turn_is_noop` at a concrete input. -/
theorem C1_witness :
    ∃ rep, process_whatsapp_message ⟨true, true, true⟩ ⟨MediaFetch.ok, some "olá"⟩
        (some { init_user_state "u" "u" with interaction_mode := "voice" })
        "u" "u" ⟨none, some "MEDIA1"⟩ =
        some (rep, { init_user_state "u" "u" with interaction_mode := "voice" }) ∧
      ((⟨MediaFetch.ok, some "olá"⟩ : Oracle).mediaInfo = MediaFetch.ok →
        (({ init_user_state "u" "u" with
              interaction_mode := "voice" } : Session).metadata.current_audio_task =
            some "silence" ∨
         truthy (⟨MediaFetch.ok, some "olá"⟩ : Oracle).transcript = true) →
        rep = msgProcessErr) :=
  C1_voice_audio_turn_is_noop ⟨true, true, true⟩ ⟨MediaFetch.ok, some "olá"⟩
    { init_user_state "u" "u" with interaction_mode := "voice" } "u" "u" "MEDIA1"
    rfl (by decide) rfl rfl

/-- C3 (code bug): at stage `initial` on input `voz`, with all voice
collaborators available the mode becomes voice and the stage
`awaiting_consent`; with ASR missing the engine does warn and fall back to
text mode, but instead of keeping the stage at `initial` (the spec's
behaviour, and what the source comment `Volta para a escolha` at line 446
intends) it writes the stage `awaiting_interaction_mode`, which no dispatch
branch handles. -/
theorem C3_voice_selection_behaviour :
    (∃ r s1, process_whatsapp_message ⟨true, true, true⟩ ⟨MediaFetch.ok, none⟩
        (some (init_user_state "u" "u")) "u" "u" ⟨some "voz", none⟩ = some (r, s1) ∧
       s1.interaction_mode = "voice" ∧ s1.stage = "awaiting_consent") ∧
    (∃ r s1, process_whatsapp_message ⟨false, true, true⟩ ⟨MediaFetch.ok, none⟩
        (some (init_user_state "u" "u")) "u" "u" ⟨some "voz", none⟩ = some (r, s1) ∧
       r = msgAsrUnavailable ∧ s1.interaction_mode = "text" ∧
       s1.stage = "awaiting_interaction_mode" ∧ s1.stage ≠ "initial") := by
  constructor
  · exact ⟨_, _, rfl, rfl, rfl⟩
  · exact ⟨_, _, rfl, rfl, rfl, rfl, by decide⟩

/-- C4 (code bug): a voice-mode session at `awaiting_audio_silence`
receiving an audio message gets the generic apology and keeps the entire
session unchanged — no URL is stored in `audio_urls` and the queue does not
advance — because line 381 (`message.get(...)`) raises `NameError` before
the storage at line 397 and the stage logic at lines 547-565 can run. -/
theorem C4_audio_task_turn_fails :
    process_whatsapp_message ⟨true, true, true⟩ ⟨MediaFetch.ok, some "barulho"⟩
        (some { stage := "awaiting_audio_silence"
              , metadata := { (init_user_state "u" "u").metadata with
                                current_audio_task := some "silence" }
              , tasks_queue := ["vogal_a", "vogal_e", "vogal_i", "vogal_o",
                                "fricativo_s", "fricativo_z", "sentence_read"]
              , interaction_mode := "voice" }) "u" "u" ⟨none, some "MEDIA1"⟩ =
      some (msgProcessErr,
        { stage := "awaiting_audio_silence"
        , metadata := { (init_user_state "u" "u").metadata with
                          current_audio_task := some "silence" }
        , tasks_queue := ["vogal_a", "vogal_e", "vogal_i", "vogal_o",
                          "fricativo_s", "fricativo_z", "sentence_read"]
        , interaction_mode := "voice" }) ∧
    ({ (init_user_state "u" "u").metadata with
         current_audio_task := some "silence" } : Metadata).audio_urls = [] :=
  ⟨rfl, rfl⟩

/-- C5, counterexample to the claim as stated: after the single environment
event the stage is `requesting_first_audio_task`, no task has been dequeued
(`current_audio_task` is still unset) and the queue still holds all eight
tasks — the first dequeue only happens on the next inbound event
(lines 571-582). -/
theorem C5_counterexample :
    ∃ r s1, process_whatsapp_message ⟨true, true, true⟩ ⟨MediaFetch.ok, none⟩
        (some { init_user_state "u" "u" with stage := "awaiting_environment" })
        "u" "u" ⟨some "Silencioso", none⟩ = some (r, s1) ∧
      s1.stage = "requesting_first_audio_task" ∧
      s1.stage ≠ "awaiting_audio_silence" ∧
      s1.metadata.current_audio_task = none ∧
      s1.tasks_queue ≠ ["vogal_a", "vogal_e", "vogal_i", "vogal_o",
                        "fricativo_s", "fricativo_z", "sentence_read"] := by
  refine ⟨_, _, rfl, rfl, by decide, rfl, by decide⟩

/-- C5 (amended): a non-empty environment description stores the
description, fills the queue with the whole catalog and stops at
`requesting_first_audio_task`; the next inbound event (whatever its text)
then dequeues `silence`, sets it current and moves to
`awaiting_audio_silence` with the remaining seven tasks queued. -/
theorem C5_environment_then_first_task :
    (∀ caps oracle s uid un t,
      s.interaction_mode = "text" → s.stage = "awaiting_environment" →
      t ≠ "" → pyLower t ≠ "/start" →
      process_whatsapp_message caps oracle (some s) uid un ⟨some t, none⟩ =
        some (msgEnvironmentOk,
          { s with metadata := { s.metadata with environment := some t }
                 , tasks_queue := taskCatalog
                 , stage := "requesting_first_audio_task" })) ∧
    (∀ caps oracle s uid un t,
      s.interaction_mode = "text" → s.stage = "requesting_first_audio_task" →
      s.tasks_queue = taskCatalog → t ≠ "" → pyLower t ≠ "/start" →
      process_whatsapp_message caps oracle (some s) uid un ⟨some t, none⟩ =
        some (get_task_prompt "silence",
          { s with stage := "awaiting_audio_silence"
                 , tasks_queue := ["vogal_a", "vogal_e", "vogal_i", "vogal_o",
                                   "fricativo_s", "fricativo_z", "sentence_read"]
                 , metadata := { s.metadata with current_audio_task := some "silence" } })) := by
  constructor
  · intro caps oracle s uid un t hmode hstg ht hstart
    rw [process_dispatch_text caps oracle s uid un t hmode ht hstart,
        stageLogic_at_environment caps s (some t) false uid un hstg]
    unfold environment_step
    rw [if_pos (by simp [truthy, truthyStr, ht])]
    rfl
  · intro caps oracle s uid un t hmode hstg hq ht hstart
    rw [process_dispatch_text caps oracle s uid un t hmode ht hstart,
        stageLogic_at_requesting caps s (some t) false uid un hstg]
    unfold requesting_step
    rw [hq]
    rfl

/-- Witness for `C5_environment_then_first_task` at a concrete input. -/
theorem C5_witness :
    process_whatsapp_message ⟨true, true, true⟩ ⟨MediaFetch.ok, none⟩
        (some { init_user_state "u" "u" with
                  stage := "requesting_first_audio_task", tasks_queue := taskCatalog })
        "u" "u" ⟨some "ok", none⟩ =
      some (get_task_prompt "silence",
        { { init_user_state "u" "u" with
              stage := "requesting_first_audio_task", tasks_queue := taskCatalog } with
            stage := "awaiting_audio_silence"
          , tasks_queue := ["vogal_a", "vogal_e", "vogal_i", "vogal_o",
                            "fricativo_s", "fricativo_z", "sentence_read"]
          , metadata := { ({ init_user_state "u" "u" with
                               stage := "requesting_first_audio_task"
                             , tasks_queue := taskCatalog } : Session).metadata with
                            current_audio_task := some "silence" } }) :=
  C5_environment_then_first_task.2 ⟨true, true, true⟩ ⟨MediaFetch.ok, none⟩
    { init_user_state "u" "u" with
        stage := "requesting_first_audio_task", tasks_queue := taskCatalog }
    "u" "u" "ok" rfl rfl rfl (by decide) (by decide)

/-- C6, counterexample to the claim as stated: resetting a voice-mode
session does replace the record, but the fresh record's `interaction_mode`
is the string `"text"` (line 252) — one of the two set modes — not an unset
value distinct from text and voice as the spec's data model requires. -/
theorem C6_counterexample :
    process_whatsapp_message ⟨true, true, true⟩ ⟨MediaFetch.ok, none⟩
        (some { init_user_state "u" "u" with
                  stage := "finished", interaction_mode := "voice" })
        "u" "u" ⟨some "/start", none⟩ =
      some (msgWelcome, init_user_state "u" "u") ∧
    (init_user_state "u" "u").interaction_mode = "text" ∧
    ¬ ((init_user_state "u" "u").interaction_mode ≠ "text" ∧
       (init_user_state "u" "u").interaction_mode ≠ "voice") :=
  ⟨rfl, rfl, by decide⟩

/-- C6 (amended): at every stage and in every mode, a reset command replaces
the whole session record with a fresh one: stage `initial`, all collected
metadata fields `None`, empty `audio_urls`, empty task queue — and
`interaction_mode` reset to the default `"text"` (the code has no unset
mode value). -/
theorem C6_reset_replaces_session (caps : Caps) (oracle : Oracle) (s : Session)
    (uid un : String) (ev : Event) (t : String)
    (hev : ev.text = some t) (ht : t ≠ "") (hstart : pyLower t = "/start") :
    process_whatsapp_message caps oracle (some s) uid un ev =
      some (msgWelcome, init_user_state uid un) ∧
    (init_user_state uid un).stage = "initial" ∧
    (init_user_state uid un).metadata.name = none ∧
    (init_user_state uid un).metadata.age = none ∧
    (init_user_state uid un).metadata.diagnosis = none ∧
    (init_user_state uid un).metadata.smoking_status = none ∧
    (init_user_state uid un).metadata.emotional_state = none ∧
    (init_user_state uid un).metadata.environment = none ∧
    (init_user_state uid un).metadata.current_audio_task = none ∧
    (init_user_state uid un).metadata.audio_urls = [] ∧
    (init_user_state uid un).tasks_queue = [] ∧
    (init_user_state uid un).interaction_mode = "text" := by
  refine ⟨?_, rfl, rfl, rfl, rfl, rfl, rfl, rfl, rfl, rfl, rfl, rfl⟩
  simp only [process_whatsapp_message]
  rw [hev, if_pos (by simp [isStartCmd, truthyStr, ht, hstart])]

/-- Witness for `C6_reset_replaces_session` at a concrete input. -/
theorem C6_witness :
    process_whatsapp_message ⟨true, true, true⟩ ⟨MediaFetch.ok, none⟩
        (some { init_user_state "u" "u" with
                  stage := "awaiting_audio_vogal_a", interaction_mode := "voice" })
        "u" "n" ⟨some "/START", none⟩ =
      some (msgWelcome, init_user_state "u" "n") ∧
    (init_user_state "u" "n").stage = "initial" ∧
    (init_user_state "u" "n").metadata.name = none ∧
    (init_user_state "u" "n").metadata.age = none ∧
    (init_user_state "u" "n").metadata.diagnosis = none ∧
    (init_user_state "u" "n").metadata.smoking_status = none ∧
    (init_user_state "u" "n").metadata.emotional_state = none ∧
    (init_user_state "u" "n").metadata.environment = none ∧
    (init_user_state "u" "n").metadata.current_audio_task = none ∧
    (init_user_state "u" "n").metadata.audio_urls = [] ∧
    (init_user_state "u" "n").tasks_queue = [] ∧
    (init_user_state "u" "n").interaction_mode = "text" :=
  C6_reset_replaces_session ⟨true, true, true⟩ ⟨MediaFetch.ok, none⟩
    { init_user_state "u" "u" with
        stage := "awaiting_audio_vogal_a", interaction_mode := "voice" }
    "u" "n" ⟨some "/START", none⟩ "/START" rfl (by decide) (by decide)

/-- C7, counterexample to the claim as stated: at `finished_tasks` a
non-reset input does not leave the stage unchanged — the code advances the
stage to `finished` (line 590). -/
theorem C7_counterexample :
    ∃ r s1, process_whatsapp_message ⟨true, true, true⟩ ⟨MediaFetch.ok, none⟩
        (some { init_user_state "u" "u" with stage := "finished_tasks" })
        "u" "u" ⟨some "obrigado", none⟩ = some (r, s1) ∧
      s1.stage = "finished" ∧ s1.stage ≠ "finished_tasks" := by
  refine ⟨_, _, rfl, rfl, by decide⟩

/-- C7 (amended): at `finished`, a non-reset text input leaves the session
unchanged; at `finished_tasks`, a non-reset text input produces the closing
reply and advances the stage to `finished` (metadata and queue untouched);
the reset command at any stage returns to a fresh `initial` session. -/
theorem C7_terminal_stage_inputs :
    (∀ caps oracle s uid un t,
      s.interaction_mode = "text" → s.stage = "finished" →
      t ≠ "" → pyLower t ≠ "/start" →
      process_whatsapp_message caps oracle (some s) uid un ⟨some t, none⟩ =
        some (msgFinished, s)) ∧
    (∀ caps oracle s uid un t,
      s.interaction_mode = "text" → s.stage = "finished_tasks" →
      t ≠ "" → pyLower t ≠ "/start" →
      process_whatsapp_message caps oracle (some s) uid un ⟨some t, none⟩ =
        some (msgTasksDone, { s with stage := "finished" })) ∧
    (∀ caps oracle s uid un t, t ≠ "" → pyLower t = "/start" →
      process_whatsapp_message caps oracle (some s) uid un ⟨some t, none⟩ =
        some (msgWelcome, init_user_state uid un)) := by
  refine ⟨?_, ?_, ?_⟩
  · intro caps oracle s uid un t hmode hstg ht hstart
    rw [process_dispatch_text caps oracle s uid un t hmode ht hstart,
        stageLogic_at_finished caps s (some t) false uid un hstg]
    unfold finished_step
    rw [if_neg (by simp [hstart])]
  · intro caps oracle s uid un t hmode hstg ht hstart
    rw [process_dispatch_text caps oracle s uid un t hmode ht hstart,
        stageLogic_at_finished_tasks caps s (some t) false uid un hstg]
    unfold finished_tasks_step
    rw [if_neg (by simp [hstart])]
  · intro caps oracle s uid un t ht hstart
    simp only [process_whatsapp_message]
    rw [if_pos (by simp [isStartCmd, truthyStr, ht, hstart])]

/-- Witness for `C7_terminal_stage_inputs` at a concrete input. -/
theorem C7_witness :
    process_whatsapp_message ⟨true, true, true⟩ ⟨MediaFetch.ok, none⟩
        (some { init_user_state "u" "u" with stage := "finished" })
        "u" "u" ⟨some "olá", none⟩ =
      some (msgFinished, { init_user_state "u" "u" with stage := "finished" }) :=
  C7_terminal_stage_inputs.1 ⟨true, true, true⟩ ⟨MediaFetch.ok, none⟩
    { init_user_state "u" "u" with stage := "finished" } "u" "u" "olá"
    rfl rfl (by decide) (by decide)

lemma subSeg_refl (p : String) : SubSeg p p := ⟨[], [], by simp⟩

lemma subSeg_left {p s : String} (t : String) (h : SubSeg p s) :
    SubSeg p (t ++ s) := by
  obtain ⟨a, b, hab⟩ := h
  exact ⟨t.data ++ a, b, by simp [String.data_append, hab, List.append_assoc]⟩

lemma subSeg_right {p s : String} (t : String) (h : SubSeg p s) :
    SubSeg p (s ++ t) := by
  obtain ⟨a, b, hab⟩ := h
  exact ⟨a, b ++ t.data, by simp [String.data_append, hab, List.append_assoc]⟩

lemma appearsInOrder_prepend {ps : List String} (c : List Char) {l : List Char}
    (h : appearsInOrder ps l) : appearsInOrder ps (c ++ l) := by
  cases ps with
  | nil => trivial
  | cons p ps =>
    obtain ⟨a, b, hab, hrest⟩ := h
    exact ⟨c ++ a, b, by rw [hab]; simp [List.append_assoc], hrest⟩

lemma appearsInOrder_append_right {ps : List String} {l : List Char} (d : List Char)
    (h : appearsInOrder ps l) : appearsInOrder ps (l ++ d) := by
  induction ps generalizing l with
  | nil => trivial
  | cons p ps ih =>
    obtain ⟨a, b, hab, hrest⟩ := h
    exact ⟨a, b ++ d, by rw [hab]; simp [List.append_assoc], ih hrest⟩

lemma appearsInOrder_join (urls : List (String × String)) :
    appearsInOrder (urls.map Prod.snd) (pyJoin "\n" (urls.map audioUrlLine)).data := by
  induction urls with
  | nil => trivial
  | cons x rest ih =>
    cases rest with
    | nil =>
      refine ⟨("- " ++ pyTitle (pyReplaceUnderscore x.1) ++ ": ").data, [], ?_, trivial⟩
      simp [pyJoin, audioUrlLine, String.data_append, List.append_assoc]
    | cons y ys =>
      refine ⟨("- " ++ pyTitle (pyReplaceUnderscore x.1) ++ ": ").data,
              ("\n" ++ pyJoin "\n" ((y :: ys).map audioUrlLine)).data, ?_, ?_⟩
      · simp [pyJoin, audioUrlLine, String.data_append, List.append_assoc]
      · rw [String.data_append]
        exact appearsInOrder_prepend _ ih

/-- C8, counterexample to the claim as stated: the smoking-status field is
stored lower-cased (line 506) but rendered through `.title()` (line 644),
so the stored value `não fumante` does not appear verbatim in the
completion summary — only its title-cased form does. -/
theorem C8_counterexample :
    ∃ msg, get_completion_message
        ⟨"u", "whatsapp", "u", some "Maria", some 30, some "Saudável",
         some "não fumante", some 2, some "Silencioso", none,
         [("silence", "https://r2.example/s.ogg"),
          ("vogal_a", "https://r2.example/a.ogg")]⟩ = some msg ∧
      strHasSeg "não fumante" msg = false ∧
      strHasSeg "Não Fumante" msg = true := by
  refine ⟨_, rfl, ?_, ?_⟩ <;> decide

/-- C8 (amended): for every completed metadata record the completion
summary contains verbatim the name, the decimal age, the diagnosis, the
decimal emotional score and the environment; the smoking status appears
title-cased (not verbatim); and the recordings' URLs appear verbatim in
insertion order. -/
theorem C8_completion_summary_contents (uid pf un name diag sm env : String)
    (age emo : Nat) (cat : Option String) (urls : List (String × String)) :
    ∃ msg, get_completion_message
        ⟨uid, pf, un, some name, some age, some diag, some sm, some emo,
         some env, cat, urls⟩ = some msg ∧
      SubSeg name msg ∧ SubSeg (toString age) msg ∧ SubSeg diag msg ∧
      SubSeg (pyTitle sm) msg ∧ SubSeg (toString emo) msg ∧ SubSeg env msg ∧
      appearsInOrder (urls.map Prod.snd) msg.data := by
  refine ⟨_, rfl, ?_, ?_, ?_, ?_, ?_, ?_, ?_⟩
  · repeat first | exact subSeg_right _ (subSeg_refl _) | apply subSeg_left
  · repeat first | exact subSeg_right _ (subSeg_refl _) | apply subSeg_left
  · repeat first | exact subSeg_right _ (subSeg_refl _) | apply subSeg_left
  · repeat first | exact subSeg_right _ (subSeg_refl _) | apply subSeg_left
  · repeat first | exact subSeg_right _ (subSeg_refl _) | apply subSeg_left
  · repeat first | exact subSeg_right _ (subSeg_refl _) | apply subSeg_left
  · rw [String.data_append]
    apply appearsInOrder_prepend
    rw [String.data_append]
    apply appearsInOrder_prepend
    rw [String.data_append]
    apply appearsInOrder_prepend
    rw [String.data_append]
    apply appearsInOrder_prepend
    rw [String.data_append]
    apply appearsInOrder_prepend
    rw [String.data_append]
    apply appearsInOrder_prepend
    rw [String.data_append]
    apply appearsInOrder_prepend
    rw [String.data_append]
    apply appearsInOrder_prepend
    rw [String.data_append]
    apply appearsInOrder_prepend
    rw [String.data_append]
    apply appearsInOrder_prepend
    rw [String.data_append]
    apply appearsInOrder_prepend
    rw [String.data_append]
    apply appearsInOrder_prepend
    rw [String.data_append]
    apply appearsInOrder_prepend
    rw [String.data_append]
    apply appearsInOrder_prepend
    rw [String.data_append]
    apply appearsInOrder_prepend
    rw [String.data_append]
    apply appearsInOrder_prepend
    rw [String.data_append]
    apply appearsInOrder_append_right
    by_cases hu : urls = []
    · subst hu
      exact trivial
    · unfold audioListStr
      rw [if_neg hu]
      exact appearsInOrder_join urls

/-- Acceptance failure, per the spec §4.1 table (comparison definition for
the rejection-atomicity claim): `true` when the text input fails the
stage's acceptance predicate. -/
def specRejects (s : Session) (t : String) : Bool :=
  if s.stage = "initial" then
    (if pyLower t = "texto" ∨ pyLower t = "voz" then false else true)
  else if s.stage = "awaiting_consent" then
    (if pyLower t = "sim" ∨ pyLower t = "s" ∨ pyLower t = "não" ∨
        pyLower t = "n" ∨ pyLower t = "nao" then false else true)
  else if s.stage = "awaiting_name" then false
  else if s.stage = "awaiting_age" then
    (if pyIsDigit t = true ∧ 5 ≤ pyToNat t ∧ pyToNat t ≤ 120 then false else true)
  else if s.stage = "awaiting_smoking_status" then
    (if pyLower t = "fumante" ∨ pyLower t = "ex-fumante" ∨
        pyLower t = "não fumante" ∨ pyLower t = "nao fumante" then false else true)
  else if s.stage = "awaiting_diagnosis" then false
  else if s.stage = "awaiting_emotional_state" then
    (if pyIsDigit t = true ∧ 1 ≤ pyToNat t ∧ pyToNat t ≤ 5 then false else true)
  else if s.stage = "awaiting_environment" then false
  else if strStarts "awaiting_audio_" s.stage = true then true
  else if s.stage = "requesting_first_audio_task" then false
  else if s.stage = "finished" then true
  else false

/-- The stage-specific re-prompt issued on rejection (read off the
rejection branches of the dispatch chain, lines 428-598). -/
def specReprompt (s : Session) : String :=
  if s.stage = "initial" then msgChooseMode
  else if s.stage = "awaiting_consent" then msgConsentAgain
  else if s.stage = "awaiting_age" then msgAgeAgain
  else if s.stage = "awaiting_smoking_status" then msgSmokingAgain
  else if s.stage = "awaiting_emotional_state" then msgEmotionalAgain
  else if strStarts "awaiting_audio_" s.stage = true then
    (match s.metadata.current_audio_task with
     | some task => msgAudioAgain task
     | none => "")
  else if s.stage = "finished" then msgFinished
  else ""

lemma c9_audio_case (caps : Caps) (s : Session) (t : String) (uid un : String)
    (task : String) (hss : strStarts "awaiting_audio_" s.stage = true)
    (htk : s.metadata.current_audio_task = some task) :
    stageLogic caps s (some t) false uid un = some (specReprompt s, s) := by
  rw [stageLogic_at_audio caps s (some t) false uid un hss]
  have n1 := stage_ne_of_audioStarts "initial" hss (by decide)
  have n2 := stage_ne_of_audioStarts "awaiting_consent" hss (by decide)
  have n3 := stage_ne_of_audioStarts "awaiting_age" hss (by decide)
  have n4 := stage_ne_of_audioStarts "awaiting_smoking_status" hss (by decide)
  have n5 := stage_ne_of_audioStarts "awaiting_emotional_state" hss (by decide)
  have hrp : specReprompt s = msgAudioAgain task := by
    unfold specReprompt
    simp [n1, n2, n3, n4, n5, hss, htk]
  rw [hrp]
  unfold audio_stage_step
  rw [if_neg (by decide), htk]

/-- C9 (amended): in text mode, a text event that fails the current stage's
acceptance predicate leaves the session record entirely unchanged and
produces the stage-specific re-prompt — at every stage except
`finished_tasks`, where the code instead produces the closing reply and
advances the stage to `finished` (metadata and queue still untouched). -/
theorem C9_rejection_atomicity :
    (∀ caps oracle s uid un t,
       s.interaction_mode = "text" → t ≠ "" → pyLower t ≠ "/start" →
       extGraphNode s.stage = true →
       (strStarts "awaiting_audio_" s.stage = true →
         s.metadata.current_audio_task.isSome = true) →
       specRejects s t = true →
       process_whatsapp_message caps oracle (some s) uid un ⟨some t, none⟩ =
         some (specReprompt s, s)) ∧
    (∀ caps oracle s uid un t,
       s.interaction_mode = "text" → t ≠ "" → pyLower t ≠ "/start" →
       s.stage = "finished_tasks" →
       process_whatsapp_message caps oracle (some s) uid un ⟨some t, none⟩ =
         some (msgTasksDone, { s with stage := "finished" })) := by
  constructor
  · intro caps oracle s uid un t hmode ht hstart hnode hsome hrej
    rw [process_dispatch_text caps oracle s uid un t hmode ht hstart]
    rcases extGraphNode_cases hnode with
      h0|h0|h0|h0|h0|h0|h0|h0|h0|h0|h0|h0|h0|h0|h0|h0|h0|h0|h0|h0
    · -- initial
      have hrej' : ¬(pyLower t = "texto") ∧ ¬(pyLower t = "voz") := by
        unfold specRejects at hrej
        rw [h0] at hrej
        simp at hrej
        exact hrej
      have hrp : specReprompt s = msgChooseMode := by
        unfold specReprompt
        rw [h0]
        rfl
      rw [stageLogic_at_initial caps s (some t) false uid un h0, hrp]
      unfold initial_step
      rw [if_neg (by simp [hrej'.1]), if_neg (by simp [hrej'.2])]
    · -- awaiting_consent
      have hrej' : ¬(pyLower t = "sim") ∧ ¬(pyLower t = "s") ∧
          ¬(pyLower t = "não") ∧ ¬(pyLower t = "n") ∧ ¬(pyLower t = "nao") := by
        unfold specRejects at hrej
        rw [h0] at hrej
        simp at hrej
        exact hrej
      have hrp : specReprompt s = msgConsentAgain := by
        unfold specReprompt
        rw [h0]
        rfl
      rw [stageLogic_at_consent caps s (some t) false uid un h0, hrp]
      unfold consent_step
      rw [if_neg (by simp [hrej'.1, hrej'.2.1]),
          if_neg (by simp [hrej'.2.2.1, hrej'.2.2.2.1, hrej'.2.2.2.2])]
    · -- awaiting_name: never rejects a truthy text
      unfold specRejects at hrej
      rw [h0] at hrej
      simp at hrej
    · -- awaiting_age
      have hrej' : ¬(pyIsDigit t = true ∧ 5 ≤ pyToNat t ∧ pyToNat t ≤ 120) := by
        intro hc
        unfold specRejects at hrej
        rw [h0] at hrej
        simp [hc.1, hc.2.1, hc.2.2] at hrej
      have hrp : specReprompt s = msgAgeAgain := by
        unfold specReprompt
        rw [h0]
        rfl
      rw [stageLogic_at_age caps s (some t) false uid un h0, hrp]
      unfold age_step
      rw [if_neg (fun hc => hrej' ⟨hc.2.1, hc.2.2⟩)]
    · -- awaiting_smoking_status
      have hrej' : ¬(pyLower t = "fumante") ∧ ¬(pyLower t = "ex-fumante") ∧
          ¬(pyLower t = "não fumante") ∧ ¬(pyLower t = "nao fumante") := by
        unfold specRejects at hrej
        rw [h0] at hrej
        simp at hrej
        exact hrej
      have hrp : specReprompt s = msgSmokingAgain := by
        unfold specReprompt
        rw [h0]
        rfl
      rw [stageLogic_at_smoking caps s (some t) false uid un h0, hrp]
      unfold smoking_step
      rw [if_neg (by simp [hrej'.1, hrej'.2.1, hrej'.2.2.1, hrej'.2.2.2])]
    · -- awaiting_diagnosis: never rejects a truthy text
      unfold specRejects at hrej
      rw [h0] at hrej
      simp at hrej
    · -- awaiting_emotional_state
      have hrej' : ¬(pyIsDigit t = true ∧ 1 ≤ pyToNat t ∧ pyToNat t ≤ 5) := by
        intro hc
        unfold specRejects at hrej
        rw [h0] at hrej
        simp [hc.1, hc.2.1, hc.2.2] at hrej
      have hrp : specReprompt s = msgEmotionalAgain := by
        unfold specReprompt
        rw [h0]
        rfl
      rw [stageLogic_at_emotional caps s (some t) false uid un h0, hrp]
      unfold emotional_step
      rw [if_neg (fun hc => hrej' ⟨hc.2.1, hc.2.2⟩)]
    · -- awaiting_environment: never rejects a truthy text
      unfold specRejects at hrej
      rw [h0] at hrej
      simp at hrej
    · -- requesting_first_audio_task: accepts anything
      unfold specRejects at hrej
      rw [h0] at hrej
      simp at hrej
      exact absurd hrej (by decide)
    · -- finished_tasks: specRejects is false here
      unfold specRejects at hrej
      rw [h0] at hrej
      simp at hrej
      exact absurd hrej (by decide)
    · -- finished
      have hrp : specReprompt s = msgFinished := by
        unfold specReprompt
        rw [h0]
        rfl
      rw [stageLogic_at_finished caps s (some t) false uid un h0, hrp]
      unfold finished_step
      rw [if_neg (by simp [hstart])]
    · have hss : strStarts "awaiting_audio_" s.stage = true := by rw [h0]; decide
      obtain ⟨task, htk⟩ := Option.isSome_iff_exists.mp (hsome hss)
      exact c9_audio_case caps s t uid un task hss htk
    · have hss : strStarts "awaiting_audio_" s.stage = true := by rw [h0]; decide
      obtain ⟨task, htk⟩ := Option.isSome_iff_exists.mp (hsome hss)
      exact c9_audio_case caps s t uid un task hss htk
    · have hss : strStarts "awaiting_audio_" s.stage = true := by rw [h0]; decide
      obtain ⟨task, htk⟩ := Option.isSome_iff_exists.mp (hsome hss)
      exact c9_audio_case caps s t uid un task hss htk
    · have hss : strStarts "awaiting_audio_" s.stage = true := by rw [h0]; decide
      obtain ⟨task, htk⟩ := Option.isSome_iff_exists.mp (hsome hss)
      exact c9_audio_case caps s t uid un task hss htk
    · have hss : strStarts "awaiting_audio_" s.stage = true := by rw [h0]; decide
      obtain ⟨task, htk⟩ := Option.isSome_iff_exists.mp (hsome hss)
      exact c9_audio_case caps s t uid un task hss htk
    · have hss : strStarts "awaiting_audio_" s.stage = true := by rw [h0]; decide
      obtain ⟨task, htk⟩ := Option.isSome_iff_exists.mp (hsome hss)
      exact c9_audio_case caps s t uid un task hss htk
    · have hss : strStarts "awaiting_audio_" s.stage = true := by rw [h0]; decide
      obtain ⟨task, htk⟩ := Option.isSome_iff_exists.mp (hsome hss)
      exact c9_audio_case caps s t uid un task hss htk
    · have hss : strStarts "awaiting_audio_" s.stage = true := by rw [h0]; decide
      obtain ⟨task, htk⟩ := Option.isSome_iff_exists.mp (hsome hss)
      exact c9_audio_case caps s t uid un task hss htk
    · -- awaiting_interaction_mode: specRejects is false here
      unfold specRejects at hrej
      rw [h0] at hrej
      simp at hrej
      exact absurd hrej (by decide)
  · intro caps oracle s uid un t hmode ht hstart hstg
    rw [process_dispatch_text caps oracle s uid un t hmode ht hstart,
        stageLogic_at_finished_tasks caps s (some t) false uid un hstg]
    unfold finished_tasks_step
    rw [if_neg (by simp [hstart])]

/-- C9, counterexample to the claim as stated: at `finished_tasks` a text
input failing the stage's acceptance predicate (only the reset command is
accepted there) does not leave the stage unchanged — it becomes
`finished`. -/
theorem C9_counterexample :
    ∃ r s1, process_whatsapp_message ⟨true, true, true⟩ ⟨MediaFetch.ok, none⟩
        (some { init_user_state "u" "u" with stage := "finished_tasks" })
        "u" "u" ⟨some "oi", none⟩ = some (r, s1) ∧
      s1.stage ≠ "finished_tasks" := by
  refine ⟨_, _, rfl, by decide⟩

/-- Witness for `C9_rejection_atomicity` at a concrete input (the spec's
own scenario: `abc` at `awaiting_age`). -/
theorem C9_witness :
    process_whatsapp_message ⟨true, true, true⟩ ⟨MediaFetch.ok, none⟩
        (some { init_user_state "u" "u" with stage := "awaiting_age" })
        "u" "u" ⟨some "abc", none⟩ =
      some (specReprompt { init_user_state "u" "u" with stage := "awaiting_age" },
            { init_user_state "u" "u" with stage := "awaiting_age" }) :=
  C9_rejection_atomicity.1 ⟨true, true, true⟩ ⟨MediaFetch.ok, none⟩
    { init_user_state "u" "u" with stage := "awaiting_age" } "u" "u" "abc"
    rfl (by decide) (by decide) (by decide) (by decide) (by decide)

/-- C10: in text mode, an inbound audio message is rejected with the
mode-mismatch reply before any stage dispatch, at every stage, and the
session record is returned unchanged (line 417-419). -/
theorem C10_text_mode_rejects_audio (caps : Caps) (oracle : Oracle) (s : Session)
    (uid un m : String) (hmode : s.interaction_mode = "text") (hm : m ≠ "") :
    process_whatsapp_message caps oracle (some s) uid un ⟨none, some m⟩ =
      some (msgTextGotAudio, s) := by
  simp only [process_whatsapp_message]
  rw [if_neg (by simp [isStartCmd])]
  have hroute : route caps oracle s ⟨none, some m⟩ = Turn.reply msgTextGotAudio := by
    unfold route
    rw [if_neg (by simp [hmode]), if_neg (by simp [hmode]),
        if_pos ⟨hmode, by simp [truthy, truthyStr, hm]⟩]
  rw [hroute]

/-- Witness for `C10_text_mode_rejects_audio` at a concrete input — a
text-mode session sitting at an audio stage. -/
theorem C10_witness :
    process_whatsapp_message ⟨true, true, true⟩ ⟨MediaFetch.ok, none⟩
        (some { init_user_state "u" "u" with
                  stage := "awaiting_audio_silence"
                , metadata := { (init_user_state "u" "u").metadata with
                                  current_audio_task := some "silence" }
                , tasks_queue := ["vogal_a", "vogal_e", "vogal_i", "vogal_o",
                                  "fricativo_s", "fricativo_z", "sentence_read"] })
        "u" "u" ⟨none, some "MEDIA9"⟩ =
      some (msgTextGotAudio,
        { init_user_state "u" "u" with
            stage := "awaiting_audio_silence"
          , metadata := { (init_user_state "u" "u").metadata with
                            current_audio_task := some "silence" }
          , tasks_queue := ["vogal_a", "vogal_e", "vogal_i", "vogal_o",
                            "fricativo_s", "fricativo_z", "sentence_read"] }) :=
  C10_text_mode_rejects_audio ⟨true, true, true⟩ ⟨MediaFetch.ok, none⟩
    { init_user_state "u" "u" with
        stage := "awaiting_audio_silence"
      , metadata := { (init_user_state "u" "u").metadata with
                        current_audio_task := some "silence" }
      , tasks_queue := ["vogal_a", "vogal_e", "vogal_i", "vogal_o",
                        "fricativo_s", "fricativo_z", "sentence_read"] }
    "u" "u" "MEDIA9" rfl (by decide)
